import Mathlib

/-!
Verification development for the `standardize_ui` HTML standardization tool
(`src/template/standardize_ui.py`).

The tool parses each HTML file into a document tree (via BeautifulSoup) and
applies a fixed pipeline of tree rewrites: rebuild the head, normalize icon
classes and glyph names, remove/insert a back-navigation header, and
remove/append a bottom navigation bar.

Modelling choices (shallow embedding):
* A parsed document is a tree of `Node`s (text nodes and element nodes).  An
  element carries its tag name, its multi-valued `class` attribute (BeautifulSoup
  keeps `class` as a list of tokens), its remaining attributes as an association
  list, and its children.  A `Doc` is the pair of head region and body region;
  parser normalization (lxml synthesizing `html`/`body`) is out of scope, so a
  `Doc` always has a body forest and an optional head forest.
* Whitespace-only text nodes between tags of the fixed canonical fragments are
  elided; no predicate of the program distinguishes them (substring checks look
  for alias words, and `get_text(strip=True)` strips whitespace anyway).
* Python string primitives are modelled over `List Char`: `str.strip`,
  `str.lower` (ASCII case map; all alias tables are ASCII), `str.replace` of a
  single-character pattern by the empty string, substring membership (`in`),
  `str.title`, and `pathlib.PurePath.stem`.
* BeautifulSoup API semantics used by the source: `find_all` traverses in
  document pre-order and the per-element predicates are evaluated top-down
  (matching an ancestor extracts its whole subtree before descendants are
  visited, and the element-local mutations performed here cannot affect a
  later sibling's match); `Tag.string` resolves through chains of single
  children; a callable passed as `class_` is applied to each individual class
  token STRING and then, as a fallback, to the space-joined class string — so
  inside the source's lambda `" ".join(x)` receives a string and interleaves a
  space between its characters; `select(".material-icons")` is class-token
  equality; element text extraction joins all descendant strings.
* Serialization and re-parsing between runs is the identity on the tree; all
  claims here are structural.
-/

namespace StandardizeUI

/-- Characters removed by Python `str.strip()` (ASCII whitespace). -/
def pyWs (c : Char) : Bool :=
  c = ' ' || c = '\t' || c = '\n' || c = '\r' || c = '\x0b' || c = '\x0c'

/-- Python `str.strip()`. -/
def pyStrip (s : String) : String :=
  ⟨((s.data.dropWhile pyWs).reverse.dropWhile pyWs).reverse⟩

/-- Python `str.lower()` (ASCII model; every table the program compares against
is ASCII, so membership in those tables is unaffected). -/
def pyLower (s : String) : String := ⟨s.data.map Char.toLower⟩

/-- Python `str.replace(" ", "")`. -/
def dropSpaces (s : String) : String := ⟨s.data.filter (fun c => c ≠ ' ')⟩

/-- Python `str.replace("_", "")`. -/
def dropUnderscores (s : String) : String := ⟨s.data.filter (fun c => c ≠ '_')⟩

/-- Contiguous-sublist test on characters, used to model Python `in`. -/
def infixChars (needle : List Char) : List Char → Bool
  | [] => needle.isEmpty
  | c :: cs => needle.isPrefixOf (c :: cs) || infixChars needle cs

/-- Python `needle in hay` on strings. -/
def strContains (hay needle : String) : Bool := infixChars needle.data hay.data

/-- Helper for `pyTitle`: the flag records whether the previous character was
alphabetic. -/
def titleChars : List Char → Bool → List Char
  | [], _ => []
  | c :: cs, prevAlpha =>
    (if c.isAlpha then (if prevAlpha then c.toLower else c.toUpper) else c) ::
      titleChars cs c.isAlpha

/-- Python `str.title()` (ASCII model). -/
def pyTitle (s : String) : String := ⟨titleChars s.data false⟩

/-- Python `pathlib.PurePath(name).stem`: the file name with its final
extension removed; a name with no dot, a leading-dot-only name, or a bare
trailing dot keeps the whole name. -/
def pathStem (s : String) : String :=
  let rev := s.data.reverse
  let ext := rev.takeWhile (fun c => c ≠ '.')
  if ext.isEmpty || ext.length = s.data.length then s
  else
    let rest := (rev.drop (ext.length + 1)).reverse
    if rest.isEmpty then s else ⟨rest⟩

/-- Python `" ".join(xs)` (and `sep.join(xs)` generally). -/
def joinWith (sep : String) : List String → String
  | [] => ""
  | [s] => s
  | s :: rest => s ++ sep ++ joinWith sep rest

/-- One node of a parsed document: a text node, or an element with tag name,
multi-valued class attribute, remaining attributes, and children. -/
inductive Node where
  | text (s : String)
  | elem (tag : String) (classes : List String) (attrs : List (String × String))
      (children : List Node)

/-- A parsed document: optional head region and body region. -/
structure Doc where
  head : Option (List Node)
  body : List Node

/-- First value bound to a key in an association list (attribute lookup, and
lookup in the `TOP_LEVEL` file-name table). -/
def lookupAttr : List (String × String) → String → Option String
  | [], _ => none
  | (k, v) :: rest, key => if k = key then some v else lookupAttr rest key

/-- Setting `el[k] = v` on a BeautifulSoup tag: replace the existing binding or
append a new one. -/
def setAttr : List (String × String) → String → String → List (String × String)
  | [], k, v => [(k, v)]
  | (k0, v0) :: rest, k, v =>
    if k0 = k then (k, v) :: rest else (k0, v0) :: setAttr rest k v

mutual

/-- All descendant text-node strings of a node, in document order
(BeautifulSoup `strings`). -/
def textsN : Node → List String
  | .text s => [s]
  | .elem _ _ _ ch => textsF ch

/-- Forest version of `textsN`. -/
def textsF : List Node → List String
  | [] => []
  | n :: ns => textsN n ++ textsF ns

end

/-- BeautifulSoup `get_text(separator=sep)`. -/
def get_text (sep : String) (n : Node) : String := joinWith sep (textsN n)

/-- BeautifulSoup `get_text(strip=True)`: each string stripped, empties
dropped, the rest concatenated. -/
def get_text_strip (n : Node) : String :=
  joinWith "" (((textsN n).map pyStrip).filter (fun s => s ≠ ""))

mutual

/-- BeautifulSoup `Tag.string`: defined when the node is a text node or has a
single child whose `string` is defined. -/
def nodeString : Node → Option String
  | .text s => some s
  | .elem _ _ _ ch => childString ch

/-- The `string` of an element with the given children: a single child chains
through, anything else is `None`. -/
def childString : List Node → Option String
  | [c] => nodeString c
  | _ => none

end

/-- The `TOP_LEVEL` table of the source: file base name to tab identifier. -/
def TOP_LEVEL : List (String × String) :=
  [("home.html", "home"), ("search_results.html", "search"),
   ("saved.html", "saved"), ("message_threads.html", "messages"),
   ("profile.html", "profile"), ("map.html", "map")]

/-- Membership of a file name in `TOP_LEVEL` (`path.name in TOP_LEVEL`). -/
def isTopLevel (name : String) : Bool := (lookupAttr TOP_LEVEL name).isSome

/-- The tab identifier mapped to a top-level file name (`TOP_LEVEL[path.name]`;
only applied when `isTopLevel` holds). -/
def tabOf (name : String) : String := (lookupAttr TOP_LEVEL name).getD ""

/-- The `BACK_ICON_NAMES` alias set of the source. -/
def BACK_ICON_NAMES : List String :=
  ["arrow_back", "arrow_back_ios", "arrow_back_ios_new", "arrowback",
   "arrowbackiosnew", "chevron_left", "chevronleft", "keyboard_backspace"]

/-- The messaging-glyph alias set written inline in `normalize_icons`. -/
def MESSAGE_ICON_NAMES : List String := ["chatbubble", "mail"]

/-- Python `" ".join(classes)` over a class token list. -/
def joinClasses (cs : List String) : String := joinWith " " cs

/-- Python `" ".join(x)` when `x` is a STRING: the separator is interleaved
between the characters of the iterable, i.e. between the individual
characters. -/
def spaceSep : List Char → List Char
  | [] => []
  | [c] => [c]
  | c :: rest => c :: ' ' :: spaceSep rest

/-- String form of `spaceSep`. -/
def joinStringChars (s : String) : String := ⟨spaceSep s.data⟩

/-- The callable the source passes as `class_` to the two glyph passes,
`lambda x: x and "material-symbols" in " ".join(x)`, applied to one STRING
argument as BeautifulSoup does: truthiness of the string, then substring
search in the space-interleaved join of its characters. -/
def markerLambda (x : String) : Bool :=
  (x != "") && strContains (joinStringChars x) "material-symbols"

/-- BeautifulSoup matching of a callable `class_` filter against a
multi-valued class attribute: the callable is tried on each individual class
token, then on the space-joined whole attribute value. -/
def classCallableMatch (cs : List String) : Bool :=
  cs.any markerLambda || markerLambda (joinClasses cs)

/-- The element filter of the two glyph passes of `normalize_icons`:
`find_all("span", class_=lambda x: x and "material-symbols" in " ".join(x))`.
Because the callable receives strings, whose character-interleaved join never
contains the space-free needle `material-symbols`, this filter matches no
element (proved below as `spanMarker_false`). -/
def spanMarker (t : String) (cs : List String) : Bool :=
  t == "span" && classCallableMatch cs

/-- The `el.string` value read by the glyph passes: `(el.string or "")` for an
element with the given children. -/
def elemString (ch : List Node) : String := (childString ch).getD ""

/-- The glyph value compared against `BACK_ICON_NAMES`:
`(el.string or "").strip().lower().replace(" ", "")`. -/
def glyphNorm (ch : List Node) : String := dropSpaces (pyLower (pyStrip (elemString ch)))

/-- The glyph value compared against the messaging alias set:
`(el.string or "").strip().lower()`. -/
def glyphChat (ch : List Node) : String := pyLower (pyStrip (elemString ch))

mutual

/-- First pass of `normalize_icons` on one node: every element whose class
token list contains `material-icons` (CSS selector `.material-icons`) has that
token removed and `material-symbols-outlined` appended. -/
def iconClassN : Node → Node
  | .text s => .text s
  | .elem t c a ch =>
    .elem t
      (if c.contains "material-icons"
       then (c.filter (fun x => x ≠ "material-icons")) ++ ["material-symbols-outlined"]
       else c)
      a (iconClassF ch)

/-- Forest version of `iconClassN`. -/
def iconClassF : List Node → List Node
  | [] => []
  | n :: ns => iconClassN n :: iconClassF ns

end

mutual

/-- Second pass of `normalize_icons` on one node: a `span` matching the
`class_` filter whose glyph is in `BACK_ICON_NAMES` would have its content
replaced by the single string `arrow_back` (the `el.string = ...` setter
replaces all children); otherwise the children are processed.  Since the
filter matches no element, this pass is the identity (`backGlyphN_id`). -/
def backGlyphN : Node → Node
  | .text s => .text s
  | .elem t c a ch =>
    if spanMarker t c && BACK_ICON_NAMES.contains (glyphNorm ch)
    then .elem t c a [.text "arrow_back"]
    else .elem t c a (backGlyphF ch)

/-- Forest version of `backGlyphN`. -/
def backGlyphF : List Node → List Node
  | [] => []
  | n :: ns => backGlyphN n :: backGlyphF ns

end

mutual

/-- Third pass of `normalize_icons` on one node: a `span` matching the
`class_` filter whose glyph is in the messaging alias set would have its
content replaced by the string `chat`.  Since the filter matches no element,
this pass is the identity (`chatGlyphN_id`). -/
def chatGlyphN : Node → Node
  | .text s => .text s
  | .elem t c a ch =>
    if spanMarker t c && MESSAGE_ICON_NAMES.contains (glyphChat ch)
    then .elem t c a [.text "chat"]
    else .elem t c a (chatGlyphF ch)

/-- Forest version of `chatGlyphN`. -/
def chatGlyphF : List Node → List Node
  | [] => []
  | n :: ns => chatGlyphN n :: chatGlyphF ns

end

/-- The `normalize_icons` source function: class pass, then back-glyph pass,
then messaging-glyph pass, each a full traversal.  The two glyph passes never
fire (`normalize_icons_eq_class_pass`), so in effect only the class pass
rewrites anything. -/
def normalize_icons (ns : List Node) : List Node := chatGlyphF (backGlyphF (iconClassF ns))

/-- The detection test of `remove_back_headers`: a `header` element whose
`get_text(separator=" ").lower()` contains, as a substring, some alias of
`BACK_ICON_NAMES` with its underscores removed (`k.replace("_", "") in text`). -/
def isBackHeaderElem (n : Node) : Bool :=
  match n with
  | .elem "header" _ _ _ =>
    BACK_ICON_NAMES.any (fun k => strContains (pyLower (get_text " " n)) (dropUnderscores k))
  | _ => false

mutual

/-- Recursion of `remove_back_headers` below a surviving node. -/
def remove_back_headersN : Node → Node
  | .text s => .text s
  | .elem t c a ch => .elem t c a (remove_back_headersF ch)

/-- The `remove_back_headers` source function on a forest: every `header`
matching `isBackHeaderElem` is extracted with its whole subtree (`find_all`
visits ancestors before descendants, so a matching ancestor disappears before
its descendants are considered). -/
def remove_back_headersF : List Node → List Node
  | [] => []
  | n :: ns =>
    if isBackHeaderElem n then remove_back_headersF ns
    else remove_back_headersN n :: remove_back_headersF ns

end

/-- The detection test of `remove_existing_bottom_nav`: a `nav` element whose
space-joined class string contains `bottom`, `fixed`, or `sticky`. -/
def isBottomNavElem (n : Node) : Bool :=
  match n with
  | .elem "nav" cs _ _ =>
    let s := joinClasses cs
    strContains s "bottom" || strContains s "fixed" || strContains s "sticky"
  | _ => false

mutual

/-- Recursion of `remove_existing_bottom_nav` below a surviving node. -/
def remove_existing_bottom_navN : Node → Node
  | .text s => .text s
  | .elem t c a ch => .elem t c a (remove_existing_bottom_navF ch)

/-- The `remove_existing_bottom_nav` source function on a forest. -/
def remove_existing_bottom_navF : List Node → List Node
  | [] => []
  | n :: ns =>
    if isBottomNavElem n then remove_existing_bottom_navF ns
    else remove_existing_bottom_navN n :: remove_existing_bottom_navF ns

end

/-- The `STD_TAILWIND_CONFIG` inline script payload (carried opaquely; no
predicate of the program inspects it). -/
def STD_TAILWIND_CONFIG : String :=
  "tailwind.config = \x7b\n  darkMode: \"class\",\n  theme: \x7b\n    extend: \x7b\n      colors: \x7b\n        primary: \"#13a4ec\",\n        \"background-light\": \"#f6f7f8\",\n        \"background-dark\": \"#101c22\",\n      \x7d,\n      fontFamily: \x7b\n        display: [\"Plus Jakarta Sans\", \"sans-serif\"],\n      \x7d,\n      borderRadius: \x7b\n        DEFAULT: \"0.5rem\",\n        lg: \"1rem\",\n        xl: \"1.5rem\",\n        full: \"9999px\",\n      \x7d,\n    \x7d,\n  \x7d,\n\x7d;\n"

/-- The `STD_ICON_STYLE` inline style payload. -/
def STD_ICON_STYLE : String :=
  "/* Material Symbols baseline */\n.material-symbols-outlined\x7b\n  font-family:\"Material Symbols Outlined\";\n  font-variation-settings:\x27FILL\x27 0,\x27wght\x27 400,\x27GRAD\x27 0,\x27opsz\x27 24;\n  line-height:1;\n  -webkit-font-smoothing:antialiased;\n  -moz-osx-font-smoothing:grayscale;\n\x7d\n"

/-- The fixed head content appended by `clean_head_keep_title` after the title:
the `STD_HEAD_LINKS` sequence (the `tailwind-config` script receiving
`STD_TAILWIND_CONFIG` as its content) followed by the icon baseline style.
Attribute names and order follow the source dictionaries (`as_` is the literal
keyword used there, and `crossorigin=True` stores Python `True`). -/
def STD_HEAD_REST : List Node :=
  [.elem "link" [] [("rel", "preconnect"), ("href", "https://fonts.googleapis.com")] [],
   .elem "link" [] [("rel", "preconnect"), ("href", "https://fonts.gstatic.com"),
                    ("crossorigin", "True")] [],
   .elem "link" [] [("rel", "preload"), ("as_", "style"),
                    ("href", "https://fonts.googleapis.com/css2?family=Plus+Jakarta+Sans:wght@400;500;700;800&display=swap"),
                    ("onload", "this.rel=\x27stylesheet\x27")] [],
   .elem "link" [] [("href", "https://fonts.googleapis.com/css2?family=Material+Symbols+Outlined:opsz,wght,FILL,GRAD@24,400,0,0"),
                    ("rel", "stylesheet")] [],
   .elem "script" [] [("src", "https://cdn.tailwindcss.com?plugins=forms,container-queries")] [],
   .elem "script" [] [("id", "tailwind-config")] [.text STD_TAILWIND_CONFIG],
   .elem "style" [] [] [.text STD_ICON_STYLE]]

mutual

/-- BeautifulSoup `head.title`: the first `title` element in pre-order. -/
def findTitleN : Node → Option Node
  | .text _ => none
  | .elem t c a ch => if t == "title" then some (.elem t c a ch) else findTitleF ch

/-- Forest version of `findTitleN`. -/
def findTitleF : List Node → Option Node
  | [] => none
  | n :: ns =>
    match findTitleN n with
    | some r => some r
    | none => findTitleF ns

end

/-- The title text `clean_head_keep_title` writes back: the existing title's
`.string`, stripped, when the title exists and its `.string` is truthy and does
not strip to empty; the placeholder `App` otherwise. -/
def preservedTitle (headF : List Node) : String :=
  match findTitleF headF with
  | none => "App"
  | some tEl =>
    match nodeString tEl with
    | none => "App"
    | some s =>
      if s = "" then "App"
      else if pyStrip s = "" then "App" else pyStrip s

/-- The rebuilt `title` element. -/
def mkTitle (s : String) : Node := .elem "title" [] [] [.text s]

/-- The `clean_head_keep_title` source function, as the head forest it leaves
behind: the preserved title followed by the canonical head block. -/
def clean_head_keep_title (headF : List Node) : List Node :=
  mkTitle (preservedTitle headF) :: STD_HEAD_REST

mutual

/-- BeautifulSoup `soup.find("h1")`: the first `h1` element in pre-order. -/
def findH1N : Node → Option Node
  | .text _ => none
  | .elem t c a ch => if t == "h1" then some (.elem t c a ch) else findH1F ch

/-- Forest version of `findH1N`. -/
def findH1F : List Node → Option Node
  | [] => none
  | n :: ns =>
    match findH1N n with
    | some r => some r
    | none => findH1F ns

end

/-- The file-name fallback of `find_page_title`:
`Path(file_name).stem.replace("_", " ").title()`. -/
def fallbackTitle (file_name : String) : String :=
  pyTitle ⟨(pathStem file_name).data.map (fun c => if c = '_' then ' ' else c)⟩

/-- The `find_page_title` source function over the document forest in document
order: the first `h1` with non-empty `get_text(strip=True)`, else the
prettified file name (an `h1` whose stripped text is empty falls straight back
to the file name). -/
def find_page_title (docNodes : List Node) (file_name : String) : String :=
  match findH1F docNodes with
  | some h1 =>
    let t := get_text_strip h1
    if t = "" then fallbackTitle file_name else t
  | none => fallbackTitle file_name

/-- The canonical back header fragment of `STD_BACK_HEADER_HTML` with its title
slot set: `insert_back_header` writes `title or "Back"` into the `h1`. -/
def mkBackHeader (title : String) : Node :=
  .elem "header"
    ["sticky", "top-0", "z-50", "bg-white/90", "dark:bg-slate-900/80",
     "backdrop-blur", "border-b", "border-slate-200", "dark:border-slate-800"] []
    [.elem "div" ["h-14", "flex", "items-center", "gap-3", "px-4"] []
      [.elem "a"
        ["inline-flex", "h-10", "w-10", "items-center", "justify-center",
         "rounded-full", "hover:bg-slate-100", "dark:hover:bg-slate-800",
         "text-slate-700", "dark:text-slate-200"]
        [("href", "javascript:history.back()"), ("aria-label", "Back")]
        [.elem "span" ["material-symbols-outlined", "text-[24px]"]
          [("aria-hidden", "true")] [.text "arrow_back"]],
       .elem "h1" ["text-base", "font-bold", "tracking-wide", "truncate"] []
        [.text (if title = "" then "Back" else title)]]]

/-- The `insert_back_header` source function: the fresh header becomes the
first element of the body. -/
def insert_back_header (title : String) (body : List Node) : List Node :=
  mkBackHeader title :: body

/-- One entry of the canonical bottom navigation fragment. -/
def navEntry (href tab glyph label : String) : Node :=
  .elem "li" [] []
    [.elem "a"
      ["flex", "flex-col", "items-center", "justify-center", "py-2",
       "text-slate-600", "dark:text-slate-300", "hover:text-primary"]
      [("href", href), ("data-tab", tab)]
      [.elem "span" ["material-symbols-outlined", "text-[22px]"] [] [.text glyph],
       .elem "span" ["text-[10px]", "leading-none", "mt-1"] [] [.text label]]]

/-- The canonical bottom navigation fragment of `STD_BOTTOM_NAV_HTML`. -/
def STD_BOTTOM_NAV : Node :=
  .elem "nav"
    ["fixed", "bottom-0", "inset-x-0", "z-50", "border-t", "border-slate-200",
     "dark:border-slate-800", "bg-white/95", "dark:bg-slate-900/90", "backdrop-blur"] []
    [.elem "ul" ["grid", "grid-cols-5", "text-xs"] []
      [navEntry "home.html" "home" "home" "Home",
       navEntry "search_results.html" "search" "search" "Search",
       navEntry "saved.html" "saved" "bookmark" "Saved",
       navEntry "message_threads.html" "messages" "chat" "Messages",
       navEntry "profile.html" "profile" "person" "Profile"]]

mutual

/-- The marking loop of `insert_bottom_nav`: every descendant carrying
`data-tab` equal to the active identifier receives `aria-current="page"` and
the `text-primary` class token. -/
def markActiveN (active : String) : Node → Node
  | .text s => .text s
  | .elem t c a ch =>
    if lookupAttr a "data-tab" = some active
    then .elem t (c ++ ["text-primary"]) (setAttr a "aria-current" "page")
           (markActiveF active ch)
    else .elem t c a (markActiveF active ch)

/-- Forest version of `markActiveN`. -/
def markActiveF (active : String) : List Node → List Node
  | [] => []
  | n :: ns => markActiveN active n :: markActiveF active ns

end

/-- The navigation fragment `insert_bottom_nav` appends: the canonical fragment
with the active entry marked. -/
def mkBottomNav (active : String) : Node := markActiveN active STD_BOTTOM_NAV

/-- The `insert_bottom_nav` source function: the marked fragment becomes the
last element of the body. -/
def insert_bottom_nav (active : String) (body : List Node) : List Node :=
  body ++ [mkBottomNav active]

/-- The `process_file` transformation pipeline on one parsed document, in the
order of the source: rebuild head, normalize icons over the whole document,
resolve the page title, remove back headers everywhere (inserting the fresh
one on non-top-level pages), remove bottom navigations everywhere (appending
the fresh one on top-level pages). -/
def transform (file_name : String) (d : Doc) : Doc :=
  let head0 := clean_head_keep_title (d.head.getD [])
  let head1 := normalize_icons head0
  let body1 := normalize_icons d.body
  let is_top := isTopLevel file_name
  let title := find_page_title (head1 ++ body1) file_name
  let head2 := remove_back_headersF head1
  let body2 := remove_back_headersF body1
  let body3 := if is_top then body2 else insert_back_header title body2
  let head3 := remove_existing_bottom_navF head2
  let body4 := remove_existing_bottom_navF body3
  let body5 := if is_top then insert_bottom_nav (tabOf file_name) body4 else body4
  ⟨some head3, body5⟩

/-! Disk-level model: the backup-and-write step of `process_file` and the
driver loop of `main`.  Serialization and parsing are the identity of this
structural model, so file contents are carried as parsed documents. -/

/-- State of the two disk paths of one file: the content at the original path
and the content at the backup path (`path.with_suffix(path.suffix + ".bak")`);
`none` means the path is absent or unreadable. -/
structure FileState where
  current : Option Doc
  backup : Option Doc

/-- The disk effect of `process_file` on one file: read and parse the original
(failing when it is unreadable, the one environmental failure point), then
`path.replace(backup)` — unconditionally moving the current content onto the
backup path, overwriting whatever was there — and finally write the
transformed content at the original path. -/
def process_file (name : String) (fs : FileState) : Except String FileState :=
  match fs.current with
  | none => .error "read failure"
  | some d => .ok ⟨some (transform name d), some d⟩

/-- One discovered file of the driver loop: its name and its path state. -/
structure HFile where
  name : String
  fs : FileState

/-- The per-file status line `main` prints: the `try` body around
`process_file` reports success, the `except` arm reports the failure together
with the file identity. -/
def reportLine (f : HFile) : String :=
  match process_file f.name f.fs with
  | .ok _ => "Updated: " ++ f.name
  | .error e => "[ERROR] " ++ f.name ++ ": " ++ e

/-- The `main` loop over the discovered files: files are attempted in order,
and a failure yields that file's error line while the loop continues. -/
def main_loop : List HFile → List String
  | [] => []
  | f :: rest => reportLine f :: main_loop rest

/-! Observation helpers used by the claim statements. -/

/-- The text of the document's head title element, resolved like BeautifulSoup
`head.title.string`. -/
def docTitleText (d : Doc) : Option String :=
  (findTitleF (d.head.getD [])).bind nodeString

mutual

/-- All elements of a subtree (the root included) carrying a `data-tab`
attribute, in document order: the `new_nav.select("[data-tab]")` list. -/
def entriesN : Node → List Node
  | .text _ => []
  | .elem t c a ch =>
    (if (lookupAttr a "data-tab").isSome then [Node.elem t c a ch] else []) ++ entriesF ch

/-- Forest version of `entriesN`. -/
def entriesF : List Node → List Node
  | [] => []
  | n :: ns => entriesN n ++ entriesF ns

end

/-- A navigation entry carrying the active marker: the `aria-current="page"`
attribute together with the `text-primary` highlight token. -/
def entryActive (n : Node) : Bool :=
  match n with
  | .text _ => false
  | .elem _ c a _ => (lookupAttr a "aria-current" == some "page") && c.contains "text-primary"

/-- The tab identifier of a navigation entry. -/
def entryTab (n : Node) : Option String :=
  match n with
  | .text _ => none
  | .elem _ _ a _ => lookupAttr a "data-tab"

/-- Modelled from the spec's words, for comparison with the source's
`isBackHeaderElem`: a header-region element whose flattened text content
contains, as a substring after stripping underscores and case-folding, an
alias of the back-arrow alias set (the alias is compared with its underscores
stripped as well, since an underscored alias can never occur verbatim in an
underscore-stripped text). -/
def specBackHeaderDetect (n : Node) : Bool :=
  match n with
  | .elem "header" _ _ _ =>
    BACK_ICON_NAMES.any (fun k =>
      strContains (dropUnderscores (pyLower (get_text " " n))) (dropUnderscores k))
  | _ => false

/-! Auxiliary lemmas. -/

/-- Unfolding of the back-glyph pass on a non-matching element. -/
theorem backGlyphN_neg (t : String) (c : List String) (a : List (String × String))
    (ch : List Node)
    (h : (spanMarker t c && BACK_ICON_NAMES.contains (glyphNorm ch)) = false) :
    backGlyphN (.elem t c a ch) = .elem t c a (backGlyphF ch) := by
  simp only [backGlyphN]
  rw [if_neg (fun hc => by rw [hc] at h; simp at h)]

/-- Unfolding of the messaging-glyph pass on a non-matching element. -/
theorem chatGlyphN_neg (t : String) (c : List String) (a : List (String × String))
    (ch : List Node)
    (h : (spanMarker t c && MESSAGE_ICON_NAMES.contains (glyphChat ch)) = false) :
    chatGlyphN (.elem t c a ch) = .elem t c a (chatGlyphF ch) := by
  simp only [chatGlyphN]
  rw [if_neg (fun hc => by rw [hc] at h; simp at h)]

/-- Cons equation of the back-glyph pass. -/
theorem backGlyphF_cons (n : Node) (ns : List Node) :
    backGlyphF (n :: ns) = backGlyphN n :: backGlyphF ns := rfl

/-- Cons equation of the messaging-glyph pass. -/
theorem chatGlyphF_cons (n : Node) (ns : List Node) :
    chatGlyphF (n :: ns) = chatGlyphN n :: chatGlyphF ns := rfl

/-- A word whose second character is not a space is never a prefix of a
character-interleaved string: the interleaving places a space right after the
first character. -/
theorem isPrefixOf_spaceSep_false (n1 n2 : Char) (nr : List Char)
    (h2 : (n2 == ' ') = false) :
    ∀ l : List Char, (n1 :: n2 :: nr).isPrefixOf (spaceSep l) = false
  | [] => rfl
  | [c] => by
    show ((n1 == c) && false) = false
    rw [Bool.and_false]
  | c :: c2 :: rest => by
    show ((n1 == c) && ((n2 == ' ') && nr.isPrefixOf (spaceSep (c2 :: rest)))) = false
    rw [h2, Bool.false_and, Bool.and_false]

/-- A word of two or more non-space characters occurs nowhere in a
character-interleaved string: every window of length two there contains a
space. -/
theorem infixChars_spaceSep_false (n1 n2 : Char) (nr : List Char)
    (h1 : (n1 == ' ') = false) (h2 : (n2 == ' ') = false) :
    ∀ l : List Char, infixChars (n1 :: n2 :: nr) (spaceSep l) = false
  | [] => rfl
  | [c] => by
    show (((n1 == c) && false) || ((n1 :: n2 :: nr).isEmpty)) = false
    rw [Bool.and_false, Bool.false_or]
    rfl
  | c :: c2 :: rest => by
    show (((n1 == c) && ((n2 == ' ') && nr.isPrefixOf (spaceSep (c2 :: rest)))) ||
      (((n1 == ' ') && ((n2 :: nr).isPrefixOf (spaceSep (c2 :: rest)))) ||
        infixChars (n1 :: n2 :: nr) (spaceSep (c2 :: rest)))) = false
    rw [h1, h2, Bool.false_and, Bool.and_false, Bool.false_and, Bool.false_or, Bool.false_or]
    exact infixChars_spaceSep_false n1 n2 nr h1 h2 (c2 :: rest)

/-- The `class_` callable of the glyph passes returns False on every string
argument: it space-interleaves the characters of its argument, and the
space-free needle `material-symbols` cannot occur there. -/
theorem markerLambda_false (x : String) : markerLambda x = false := by
  show ((x != "") &&
    infixChars ("material-symbols".data) (spaceSep x.data)) = false
  rw [(rfl : "material-symbols".data = 'm' :: 'a' :: "terial-symbols".data)]
  rw [infixChars_spaceSep_false 'm' 'a' _ (by decide) (by decide) x.data]
  rw [Bool.and_false]

/-- BeautifulSoup finds no match for the glyph passes' `class_` callable:
neither an individual class token nor the joined class string satisfies it. -/
theorem classCallableMatch_false (cs : List String) : classCallableMatch cs = false := by
  show (cs.any markerLambda || markerLambda (joinClasses cs)) = false
  rw [markerLambda_false, Bool.or_false]
  induction cs with
  | nil => rfl
  | cons c rest ih =>
    show (markerLambda c || rest.any markerLambda) = false
    rw [markerLambda_false, Bool.false_or]
    exact ih

/-- The span filter of the glyph passes matches no element at all. -/
theorem spanMarker_false (t : String) (cs : List String) : spanMarker t cs = false := by
  show (_ && classCallableMatch cs) = false
  rw [classCallableMatch_false, Bool.and_false]

mutual

/-- The back-glyph pass is the identity: its element filter never matches. -/
theorem backGlyphN_id (n : Node) : backGlyphN n = n := by
  cases n with
  | text s => rfl
  | elem t c a ch =>
    rw [backGlyphN_neg t c a ch (by rw [spanMarker_false, Bool.false_and])]
    rw [backGlyphF_id ch]

/-- Forest version of `backGlyphN_id`. -/
theorem backGlyphF_id (ns : List Node) : backGlyphF ns = ns := by
  match ns with
  | [] => rfl
  | n :: rest =>
    rw [backGlyphF_cons, backGlyphN_id n, backGlyphF_id rest]

end

mutual

/-- The messaging-glyph pass is the identity: its element filter never
matches. -/
theorem chatGlyphN_id (n : Node) : chatGlyphN n = n := by
  cases n with
  | text s => rfl
  | elem t c a ch =>
    rw [chatGlyphN_neg t c a ch (by rw [spanMarker_false, Bool.false_and])]
    rw [chatGlyphF_id ch]

/-- Forest version of `chatGlyphN_id`. -/
theorem chatGlyphF_id (ns : List Node) : chatGlyphF ns = ns := by
  match ns with
  | [] => rfl
  | n :: rest =>
    rw [chatGlyphF_cons, chatGlyphN_id n, chatGlyphF_id rest]

end

/-- In effect `normalize_icons` performs only the `material-icons` class pass:
the two glyph loops iterate over an empty `find_all` result. -/
theorem normalize_icons_eq_class_pass (ns : List Node) :
    normalize_icons ns = iconClassF ns := by
  show chatGlyphF (backGlyphF (iconClassF ns)) = iconClassF ns
  rw [backGlyphF_id, chatGlyphF_id]

/-- The appended navigation fragment is the last body element on top-level
pages. -/
theorem transform_body_getLast_top (file_name : String) (d : Doc)
    (h : isTopLevel file_name = true) :
    (transform file_name d).body.getLast? = some (mkBottomNav (tabOf file_name)) := by
  simp only [transform, h, if_true, insert_bottom_nav]
  exact List.getLast?_concat _

/-! Claim theorems. -/

/-- Claim C1: the claim demands that a second run of the full pipeline be a
structural no-op on every document.  The code violates it: on a detail page the
inserted canonical back header carries the glyph text `arrow_back`, but the
detection of `remove_back_headers` strips underscores from the aliases and not
from the document text, so the second run fails to recognize the header it
inserted and prepends a second one.  Starting from an empty document of a
non-top-level file, one run yields one body element and a second run yields
two. -/
theorem claim_C1_second_run_not_a_noop :
    transform "detail.html" (transform "detail.html" ⟨none, []⟩) ≠
      transform "detail.html" ⟨none, []⟩ ∧
    (transform "detail.html" (transform "detail.html" ⟨none, []⟩)).body.length = 2 ∧
    (transform "detail.html" ⟨none, []⟩).body.length = 1 :=
  ⟨fun h => absurd (congrArg (fun d => d.body.length) h) (by decide), rfl, rfl⟩

/-- Claim C2: the claim says a header whose flattened text contains, after
stripping underscores and case-folding, any back-arrow alias is removed.  The
code violates it: a header whose text is exactly `arrow_back` satisfies that
description (`specBackHeaderDetect`), yet the source predicate strips the
underscores only from the aliases, so `arrowback` is not found inside
`arrow_back` and `remove_back_headers` keeps the header. -/
theorem claim_C2_underscored_alias_header_survives :
    specBackHeaderDetect (Node.elem "header" [] [] [.text "arrow_back"]) = true ∧
    isBackHeaderElem (Node.elem "header" [] [] [.text "arrow_back"]) = false ∧
    remove_back_headersF [Node.elem "header" [] [] [.text "arrow_back"]] =
      [Node.elem "header" [] [] [.text "arrow_back"]] :=
  ⟨rfl, rfl, rfl⟩

/-- Claim C3, counterexample: the head title after transformation is the
placeholder `App` for a document with a body `h1` reading `Welcome` and no
existing title, while the resolved page title of that document is `Welcome` —
the rebuilt title does not equal the resolved title. -/
theorem claim_C3_counterexample :
    docTitleText (transform "home.html" ⟨none, [.elem "h1" [] [] [.text "Welcome"]]⟩) =
      some "App" ∧
    find_page_title [.elem "h1" [] [] [.text "Welcome"]] "home.html" = "Welcome" ∧
    ("App" : String) ≠ "Welcome" :=
  ⟨rfl, rfl, by decide⟩

/-- Claim C3, amended: after transformation the head region is exactly one
title element followed by the fixed canonical head block, and the title text is
the preserved original title (the original title element's single-child-chain
string, stripped) when that is non-empty, and the placeholder `App` otherwise —
not the resolved page title. -/
theorem claim_C3_head_invariant (file_name : String) (d : Doc) :
    (transform file_name d).head =
      some (mkTitle (preservedTitle (d.head.getD [])) :: STD_HEAD_REST) := rfl

/-- Claim C4, counterexample: `map.html` is in the top-level mapping, and the
pipeline appends a bottom navigation to it, but no entry of that navigation
carries the active marker because no entry has the tab identifier `map`. -/
theorem claim_C4_counterexample_map :
    isTopLevel "map.html" = true ∧
    (transform "map.html" ⟨none, []⟩).body.getLast? = some (mkBottomNav "map") ∧
    (entriesN (mkBottomNav "map")).countP entryActive = 0 :=
  ⟨rfl, rfl, by decide⟩

/-- Claim C4, amended: for the five file names whose mapped tab identifier has
a navigation entry (all of the top-level mapping except `map.html`), the
appended bottom navigation is the last body element, exactly one of its entries
carries the active marker, every active entry has the mapped tab identifier,
and the entries without the marker are exactly the template entries of the
other tabs, unchanged. -/
theorem claim_C4_active_tab (file_name : String)
    (h : file_name ∈ ["home.html", "search_results.html", "saved.html",
                      "message_threads.html", "profile.html"])
    (d : Doc) :
    (transform file_name d).body.getLast? = some (mkBottomNav (tabOf file_name)) ∧
    (entriesN (mkBottomNav (tabOf file_name))).countP entryActive = 1 ∧
    (entriesN (mkBottomNav (tabOf file_name))).all
      (fun e => !entryActive e || (entryTab e == some (tabOf file_name))) = true ∧
    (entriesN (mkBottomNav (tabOf file_name))).filter (fun e => !entryActive e) =
      (entriesN STD_BOTTOM_NAV).filter
        (fun e => !(entryTab e == some (tabOf file_name))) := by
  fin_cases h <;>
    exact ⟨transform_body_getLast_top _ d rfl, by decide, by decide, rfl⟩

/-- Claim C4, witness: the amended statement evaluated at `home.html` on the
empty document. -/
theorem claim_C4_active_tab_witness :
    ("home.html" ∈ ["home.html", "search_results.html", "saved.html",
                    "message_threads.html", "profile.html"]) ∧
    ((transform "home.html" ⟨none, []⟩).body.getLast? = some (mkBottomNav (tabOf "home.html")) ∧
     (entriesN (mkBottomNav (tabOf "home.html"))).countP entryActive = 1 ∧
     (entriesN (mkBottomNav (tabOf "home.html"))).all
       (fun e => !entryActive e || (entryTab e == some (tabOf "home.html"))) = true ∧
     (entriesN (mkBottomNav (tabOf "home.html"))).filter (fun e => !entryActive e) =
       (entriesN STD_BOTTOM_NAV).filter
         (fun e => !(entryTab e == some (tabOf "home.html")))) :=
  ⟨by decide, claim_C4_active_tab "home.html" (by decide) ⟨none, []⟩⟩

/-- Claim C5: the claim demands that exactly one of back header at body start
or bottom navigation at body end hold, by classification.  The code violates
it: on `home.html` (top-level) a pre-existing canonical back header — whose
glyph text `arrow_back` escapes the underscore-mismatched detection — survives
as the first body element while a bottom navigation is also appended as the
last body element, so both hold at once. -/
theorem claim_C5_both_header_and_nav :
    isTopLevel "home.html" = true ∧
    (transform "home.html" ⟨none, [mkBackHeader "X"]⟩).body =
      [mkBackHeader "X", mkBottomNav "home"] ∧
    specBackHeaderDetect (mkBackHeader "X") = true ∧
    isBottomNavElem (mkBottomNav "home") = true :=
  ⟨rfl, rfl, rfl, rfl⟩

/-- Claim C6: the claim says that after transformation no element's glyph text
is a non-canonical alias — every alias occurrence has been rewritten to
`arrow_back` or `chat`.  The code violates it: the glyph loops of
`normalize_icons` filter with `find_all("span", class_=lambda x: x and
"material-symbols" in " ".join(x))`, and BeautifulSoup applies the callable to
individual class-token strings (then to the joined class string), where
`" ".join` interleaves a space between characters, so `material-symbols` is
never found and the loops rewrite nothing.  A marker span reading
`chevron_left` passes through `normalize_icons` and the whole pipeline
unchanged, and even a legacy `material-icons` span keeps its alias glyph after
its class is renamed — directly contradicting the spec's own scenario that a
span with text `chevron_left` becomes `arrow_back`. -/
theorem claim_C6_glyph_rewrite_never_fires :
    normalize_icons [Node.elem "span" ["material-symbols-outlined"] [] [.text "chevron_left"]] =
      [Node.elem "span" ["material-symbols-outlined"] [] [.text "chevron_left"]] ∧
    normalize_icons [Node.elem "span" ["material-icons"] [] [.text "chevron_left"]] =
      [Node.elem "span" ["material-symbols-outlined"] [] [.text "chevron_left"]] ∧
    (transform "home.html"
        ⟨none, [.elem "span" ["material-symbols-outlined"] [] [.text "chevron_left"]]⟩).body.head? =
      some (.elem "span" ["material-symbols-outlined"] [] [.text "chevron_left"]) ∧
    BACK_ICON_NAMES.contains "chevron_left" = true ∧
    ("chevron_left" : String) ≠ "arrow_back" :=
  ⟨rfl, rfl, rfl, by decide, by decide⟩

/-- Claim C7: running the icon-family rewrite and the glyph-name rewrite in
either order produces the same document.  This holds of the code, though not
for the reason the spec gives (the glyph passes do read the class attribute
the family pass rewrites): the glyph passes' element filter matches nothing,
so both passes are the identity and each composition equals the class pass
alone. -/
theorem claim_C7_family_glyph_commute (ns : List Node) :
    chatGlyphF (backGlyphF (iconClassF ns)) = iconClassF (chatGlyphF (backGlyphF ns)) := by
  rw [backGlyphF_id (iconClassF ns), chatGlyphF_id (iconClassF ns),
    backGlyphF_id ns, chatGlyphF_id ns]

/-- Claim C8: the driver produces one status line per discovered file, and the
line at every index is the per-file report of that file alone — an earlier
failure neither aborts the run nor changes a later file's outcome. -/
theorem claim_C8_per_file_isolation (files : List HFile) :
    (main_loop files).length = files.length ∧
    ∀ i : Nat, (main_loop files)[i]? = (files[i]?).map reportLine := by
  induction files with
  | nil => exact ⟨rfl, fun i => by simp [main_loop]⟩
  | cons f rest ih =>
    refine ⟨by simp [main_loop, ih.1], fun i => ?_⟩
    cases i with
    | zero => simp [main_loop]
    | succ j => simpa [main_loop] using ih.2 j

/-- Claim C9: processing a readable file unconditionally moves the current
content onto the backup path, replacing any backup already there; after two
runs the backup holds the first run's transformed output and the original
content d sits at neither path. -/
theorem claim_C9_backup_replaced (name : String) (fs : FileState) (d : Doc)
    (h : fs.current = some d) :
    process_file name fs = .ok ⟨some (transform name d), some d⟩ ∧
    (process_file name fs).bind (process_file name) =
      .ok ⟨some (transform name (transform name d)), some (transform name d)⟩ := by
  simp [process_file, h, Except.bind]

/-- Claim C9, witness: the statement evaluated on a file whose backup path
already holds stale content. -/
theorem claim_C9_backup_replaced_witness :
    (⟨some ⟨none, []⟩, some ⟨none, [Node.text "stale"]⟩⟩ : FileState).current =
      some ⟨none, []⟩ ∧
    (process_file "detail.html"
        (⟨some ⟨none, []⟩, some ⟨none, [Node.text "stale"]⟩⟩ : FileState) =
      .ok ⟨some (transform "detail.html" ⟨none, []⟩), some ⟨none, []⟩⟩ ∧
     (process_file "detail.html"
        (⟨some ⟨none, []⟩, some ⟨none, [Node.text "stale"]⟩⟩ : FileState)).bind
          (process_file "detail.html") =
      .ok ⟨some (transform "detail.html" (transform "detail.html" ⟨none, []⟩)),
           some (transform "detail.html" ⟨none, []⟩)⟩) :=
  ⟨rfl, claim_C9_backup_replaced "detail.html" _ ⟨none, []⟩ rfl⟩

/-- Claim C10, counterexample: a title whose only child is nested markup with a
single-child chain (`<title><b>Hi</b></title>`) keeps its text `Hi` — the
`string` resolution follows single-child chains, so nested markup does not by
itself force the placeholder `App`. -/
theorem claim_C10_counterexample :
    docTitleText (transform "gallery.html"
        ⟨some [.elem "title" [] [] [.elem "b" [] [] [.text "Hi"]]], []⟩) = some "Hi" ∧
    get_text "" (.elem "title" [] [] [.elem "b" [] [] [.text "Hi"]]) = "Hi" ∧
    ("Hi" : String) ≠ "App" :=
  ⟨rfl, rfl, by decide⟩

/-- Claim C10, amended: the rebuilt head title is the original title's
`string`-chain text, stripped, falling back to `App` exactly when the chain
fails (no title, no children or more than one child at some level of the
chain) or the resolved text is empty or whitespace-only; single-child nested
markup preserves its text. -/
theorem claim_C10_title_resolution (file_name : String) (d : Doc) :
    docTitleText (transform file_name d) = some (preservedTitle (d.head.getD [])) := rfl

end StandardizeUI

